import Mathlib

/-!
Verification development for the Konverzky → Fiken invoice handler.

Two lambdas are modelled, straight from the JavaScript source:
* `Konverzky.handler`  — the order-webhook consumer (KonverzkyOrderConsumer.js):
  validates the payload, reads the existing DynamoDB record for the order id,
  warns on an item conflict, and upserts the record with the union of webhook
  type tags.
* `StripeWebhook.processStripeEvent` / `StripeWebhook.handler` — the Stripe
  charge consumer: validates configuration and the charge, ignores events that
  are not charge.succeeded, routes charges without an order number to an SNS
  notification, queues a retry when the order is absent from DynamoDB, and
  otherwise performs the Fiken contact/invoice/send sequence.

External collaborators (DynamoDB, SQS, SNS, the Stripe and Fiken HTTP APIs)
are modelled as oracle results carried by a `World` record; every call the
code makes is recorded in an `Effects` record so that frame properties
("no store access", "no Ledger API call") are statements about the model.

JavaScript numbers are IEEE-754 binary64 values; they are embedded as the
exact rational value of the double, and JS multiplication is `jsMul`, the
exact product rounded back to 53 bits (`fl64`), which is the arithmetic the
source performs in `item.unit_price * 100`.
-/

/-- Truthiness of a JS string-or-undefined value: `undefined`, `null` and the
empty string are falsy, every other string is truthy. -/
def truthyS : Option String → Bool
  | none => false
  | some s => decide (s ≠ "")

/-- Normalise a JS string-or-undefined value to `some s` when it is truthy and
`none` otherwise. -/
def truthyOpt : Option String → Option String
  | none => none
  | some s => if s = "" then none else some s

/-- JS `a || b` on string-or-undefined values. -/
def jsOrS (a b : Option String) : Option String :=
  match truthyOpt a with
  | some x => some x
  | none => b

/-- String interpolation of a possibly-undefined JS value: `undefined` prints
as "undefined". -/
def jsStr : Option String → String
  | none => "undefined"
  | some s => s

/-- JS `String.prototype.toUpperCase` restricted to the character-wise ASCII
mapping, which agrees with JS on every string the source handles. -/
def jsToUpper (s : String) : String := ⟨s.data.map Char.toUpper⟩

/-- One step of JS `Set` insertion: append the element unless it is already
present (JS sets keep the first occurrence, in insertion order). -/
def dedupStep (acc : List String) (t : String) : List String :=
  if t ∈ acc then acc else acc ++ [t]

/-- JS `Array.from(new Set(l))`: insertion-order deduplication. -/
def jsSetArray (l : List String) : List String :=
  l.foldl dedupStep []

/-- Round a rational to the nearest integer, ties to even (the IEEE-754
default rounding used by every JS arithmetic operation). -/
def rne (q : ℚ) : ℤ :=
  let f : ℤ := q.floor
  let r : ℚ := q - (f : ℚ)
  if r < 1 / 2 then f
  else if 1 / 2 < r then f + 1
  else if f % 2 = 0 then f else f + 1

/-- Fuel-bounded search for the binade of a positive rational: returns the
unique `e` with `2 ^ e ≤ q < 2 ^ (e + 1)` for the magnitudes a double can
take (the fuel covers the whole binary64 exponent range). -/
def scaleToBinade : Nat → ℚ → ℤ → ℤ
  | 0, _, e => e
  | fuel + 1, q, e =>
    if q < 1 then scaleToBinade fuel (q * 2) (e - 1)
    else if 2 ≤ q then scaleToBinade fuel (q / 2) (e + 1)
    else e

/-- Floor of the base-2 logarithm of a positive rational. -/
def log2floorQ (q : ℚ) : ℤ := scaleToBinade 2200 q 0

/-- The rational value `2 ^ e` for an integer exponent. -/
def pow2 : ℤ → ℚ
  | Int.ofNat n => ((2 ^ n : ℕ) : ℚ)
  | Int.negSucc n => 1 / ((2 ^ (n + 1) : ℕ) : ℚ)

/-- Binary64 rounding of a positive rational: scale into the 53-bit mantissa
range for its binade, round to nearest-even, scale back. -/
def flPos (a : ℚ) : ℚ :=
  let e : ℤ := log2floorQ a - 52
  ((rne (a * pow2 (-e)) : ℤ) : ℚ) * pow2 e

/-- The binary64 double nearest to a rational (normal range; subnormals and
overflow do not arise for the monetary magnitudes in this program). A JS
number literal such as 9.99 denotes `fl64 (999/100)`. -/
def fl64 (q : ℚ) : ℚ :=
  if q = 0 then 0 else if q < 0 then -flPos (-q) else flPos q

/-- JS multiplication of two doubles: the exact product rounded back to a
double. This is the arithmetic of `item.unit_price * 100`. -/
def jsMul (a b : ℚ) : ℚ := fl64 (a * b)

/-- One line item as stored in DynamoDB and read back by the Stripe lambda;
the five fields the Konverzky consumer projects out of the inbound payload. -/
structure OrderItem where
  name : String
  id : String
  quantity : ℚ
  unit_price : ℚ
  vat : ℚ
deriving DecidableEq

/-- The DynamoDB record for one order id, exactly the item the Konverzky
consumer writes: `{ order_id, items, last_updated, webhook_types }`. -/
structure OrderRecord where
  order_id : String
  items : List OrderItem
  last_updated : String
  webhook_types : List String
deriving DecidableEq

/-- Body of a lambda response: `JSON.stringify` of a `message` object, an
`error` object, or the SQS-batch summary object (whose `results` array of
per-record responses is carried separately by the model, in the value of
`StripeWebhook.processRecords`). -/
inductive RespBody where
  | msg (s : String)
  | err (s : String)
  | batch (s : String)
deriving DecidableEq

/-- A lambda response object `{ statusCode, body }`. -/
structure Response where
  statusCode : Nat
  body : RespBody
deriving DecidableEq

/-- The durable key-value store keyed by order id. -/
def Store : Type := String → Option OrderRecord

namespace Konverzky

/-- The nested `order` object of a Konverzky webhook payload; `items = none`
models a missing or non-array `order.items`. -/
structure KOrder where
  id : Option String
  items : Option (List OrderItem)
deriving DecidableEq

/-- A parsed Konverzky webhook payload. -/
structure KPayload where
  webhook_type : Option String
  order : Option KOrder
deriving DecidableEq

/-- Environment of one consumer invocation: the current store contents, the
clock, and whether the two DynamoDB calls fail. -/
structure KWorld where
  store : Store
  now : String
  getFails : Bool
  putFails : Bool

/-- Result of one consumer invocation: the response, the store after the
invocation, and whether the item-conflict warning was logged. -/
structure KResult where
  resp : Response
  store : Store
  conflictWarned : Bool

/-- The fixed allow-list of webhook types (KonverzkyOrderConsumer.js line 26). -/
def allowedWebhookTypes : List String := ["upsell_paid", "product_paid", "order_paid"]

/-- The Konverzky order consumer handler. `body = none` models a request body
that is not valid JSON. Mirrors KonverzkyOrderConsumer.js line by line; the
source's re-projection of the item fields is the identity on `OrderItem`. -/
def handler (w : KWorld) (body : Option KPayload) : KResult :=
  match body with
  | none =>
    { resp := { statusCode := 400, body := RespBody.err "Invalid JSON in request body" },
      store := w.store, conflictWarned := false }
  | some payload =>
    match payload.webhook_type with
    | none =>
      { resp := { statusCode := 200, body := RespBody.msg "Ignored unsupported webhook_type" },
        store := w.store, conflictWarned := false }
    | some wt =>
      if wt ∈ allowedWebhookTypes then
        match payload.order with
        | none =>
          { resp := { statusCode := 400, body := RespBody.err "Missing order or order.id" },
            store := w.store, conflictWarned := false }
        | some o =>
          match truthyOpt o.id with
          | none =>
            { resp := { statusCode := 400, body := RespBody.err "Missing order or order.id" },
              store := w.store, conflictWarned := false }
          | some orderId =>
            match o.items with
            | none =>
              { resp := { statusCode := 400, body := RespBody.err "order.items is not an array" },
                store := w.store, conflictWarned := false }
            | some orderItems =>
              let parsedItems := orderItems
              if w.getFails then
                { resp := { statusCode := 500, body := RespBody.err "Error reading from database" },
                  store := w.store, conflictWarned := false }
              else
                let existingOrder := w.store orderId
                let warned :=
                  match existingOrder with
                  | some ex => decide (ex.items ≠ parsedItems)
                  | none => false
                let record : OrderRecord :=
                  { order_id := orderId
                    items := parsedItems
                    last_updated := w.now
                    webhook_types :=
                      match existingOrder with
                      | some ex => jsSetArray (ex.webhook_types ++ [wt])
                      | none => [wt] }
                if w.putFails then
                  { resp := { statusCode := 500, body := RespBody.err "Error writing to database" },
                    store := w.store, conflictWarned := warned }
                else
                  { resp := { statusCode := 200, body := RespBody.msg "Order processed successfully" },
                    store := fun k => if k = orderId then some record else w.store k,
                    conflictWarned := warned }
      else
        { resp := { statusCode := 200, body := RespBody.msg "Ignored unsupported webhook_type" },
          store := w.store, conflictWarned := false }

/-- A well-formed Konverzky payload for order `oid` with items `its` and
webhook type `t`. -/
def mkPayload (oid : String) (its : List OrderItem) (t : String) : KPayload :=
  { webhook_type := some t, order := some { id := some oid, items := some its } }

/-- Run a sequence of upserts for the same order id, threading the store. -/
def runUpserts (w : KWorld) (oid : String) (inputs : List (List OrderItem × String)) : KWorld :=
  inputs.foldl (fun wa p => { wa with store := (handler wa (some (mkPayload oid p.1 p.2))).store }) w

end Konverzky

namespace StripeWebhook

/-- The `metadata` object of a Stripe charge. -/
structure ChargeMetadata where
  order_number : Option String
deriving DecidableEq

/-- A Stripe charge object (`stripeEvent.data.object`), with the fields the
source reads. -/
structure Charge where
  id : String
  currency : Option String
  customer : Option String
  metadata : Option ChargeMetadata
  receipt_email : Option String
deriving DecidableEq

/-- A Stripe event envelope; `dataObject = none` models a missing
`data.object` (the source throws for it). -/
structure StripeEvent where
  type : String
  dataObject : Option Charge
deriving DecidableEq

/-- The eight environment variables the source requires, each possibly unset
or empty. -/
structure Config where
  bankAccountCode : Option String
  paymentAccount : Option String
  companySlug : Option String
  fikenToken : Option String
  stripeApiKey : Option String
  tableName : Option String
  retryQueueUrl : Option String
  snsTopicArn : Option String
deriving DecidableEq

/-- The address object of a Stripe customer. -/
structure StripeAddress where
  line1 : Option String
  line2 : Option String
  city : Option String
  postal_code : Option String
  country : Option String
  state : Option String
deriving DecidableEq

/-- A Stripe customer profile as returned by the customers API. -/
structure StripeCustomer where
  email : Option String
  name : Option String
  address : Option StripeAddress
deriving DecidableEq

/-- A Fiken contact returned by the get-contacts API; the source reads
`id || contactId`. -/
structure FikenContact where
  id : Option String
  contactId : Option String
deriving DecidableEq

/-- The address part of a Fiken create-contact payload. -/
structure AddressPayload where
  streetAddress : Option String
  streetAddressLine2 : Option String
  city : Option String
  postCode : Option String
  country : String
deriving DecidableEq

/-- The Fiken create-contact payload built by the source. -/
structure ContactPayload where
  customer : Bool
  name : Option String
  email : Option String
  memberNumberString : String
  language : String
  address : AddressPayload
deriving DecidableEq

/-- One invoice line submitted to Fiken: the spread of the common product
properties plus the per-item fields (source lines 210-222). -/
structure InvoiceLine where
  currency : String
  vatType : String
  incomeAccount : Nat
  productName : String
  description : String
  comment : String
  unitPrice : ℚ
  quantity : ℚ
deriving DecidableEq

/-- The Fiken create-invoice payload built by the source. -/
structure InvoicePayload where
  issueDate : String
  dueDate : String
  lines : List InvoiceLine
  bankAccountCode : String
  paymentAccount : String
  cash : Bool
  customerId : Option String
  currency : String
  invoiceText : String
  yourReference : String
deriving DecidableEq

/-- The Fiken send-invoice payload built by the source. -/
structure SendPayload where
  invoiceId : String
  recipientEmail : String
  recipientName : Option String
  message : String
  method : List String
  subject : String
  emailSendOption : String
deriving DecidableEq

/-- One call to the Stripe or Fiken HTTP APIs, with the data the source sends. -/
inductive LedgerCall where
  | stripeGetCustomer (customerId : String)
  | fikenGetContacts (customerId : String)
  | fikenCreateContact (payload : ContactPayload)
  | fikenCreateInvoice (payload : InvoicePayload)
  | fikenSendInvoice (payload : SendPayload)
deriving DecidableEq

/-- The SQS retry message body `{ order_number, stripeEvent, timestamp }`
(source lines 119-123). It has no attempt counter field. -/
structure RetryPayload where
  order_number : String
  stripeEvent : StripeEvent
  timestamp : String
deriving DecidableEq

/-- The SNS notification published for manual order handling (source lines
42-50): subject naming the charge id, and a body with a fixed message, the
charge, and a timestamp. -/
structure ManualAlert where
  subject : String
  note : String
  charge : Charge
  timestamp : String
deriving DecidableEq

/-- Everything one invocation did to the outside world: DynamoDB keys read,
SQS retry messages (with their DelaySeconds), SNS notifications, and Stripe
and Fiken API calls, in order. -/
structure Effects where
  storeReads : List String
  retries : List (RetryPayload × Nat)
  alerts : List ManualAlert
  ledgerCalls : List LedgerCall
deriving DecidableEq

/-- The invocation that performed no side effect. -/
def noEffects : Effects :=
  { storeReads := [], retries := [], alerts := [], ledgerCalls := [] }

/-- Every distinct `throw` site of the source, with the data interpolated
into its message. -/
inductive PError where
  | configMissing (envVar : String)
  | chargeMissing
  | missingCurrency (chargeId : String)
  | missingCustomer (chargeId : String)
  | dbRead
  | sqsError (e : String)
  | snsError (e : String)
  | jsonParse
  | stripeApi (status : Nat) (text : String)
  | fikenGetContacts (status : Nat) (text : String)
  | missingEmail (chargeId : String)
  | missingCountry (chargeId : String)
  | fikenCreateContact (status : Nat) (text : String)
  | contactNoLocation
  | fikenCreateInvoice (status : Nat) (text : String)
  | invoiceNoLocation
  | fikenSendInvoice (status : Nat) (text : String)
deriving DecidableEq

/-- The `error.message` string of each throw site, exactly as the source
builds it (the 500 handler serialises this message). -/
def PError.message : PError → String
  | .configMissing v => v ++ " environment variable is not set"
  | .chargeMissing => "Charge object missing in Stripe event"
  | .missingCurrency cid => "Missing amount or currency on Charge " ++ cid ++ "."
  | .missingCustomer cid => "No customer ID found on Charge " ++ cid ++ "."
  | .dbRead => "Error reading from database"
  | .sqsError e => e
  | .snsError e => e
  | .jsonParse => "Unexpected token in JSON"
  | .stripeApi st txt => "Stripe API error (fetch customer): " ++ toString st ++ " - " ++ txt
  | .fikenGetContacts st txt => "Fiken API error (get contacts): " ++ toString st ++ " - " ++ txt
  | .missingEmail cid => "No customer email found for Charge " ++ cid ++ "."
  | .missingCountry cid => "No customer country found for Charge " ++ cid ++ "."
  | .fikenCreateContact st txt => "Fiken API error (create contact): " ++ toString st ++ " - " ++ txt
  | .contactNoLocation => "Fiken API did not return Location header for created contact"
  | .fikenCreateInvoice st txt => "Fiken API error (create invoice): " ++ toString st ++ " - " ++ txt
  | .invoiceNoLocation => "Fiken API did not return Location header for created invoice"
  | .fikenSendInvoice st txt => "Fiken API error (send invoice): " ++ toString st ++ " - " ++ txt

/-- Environment of one Stripe-lambda invocation: configuration, the clock
(`now`, and `nowPlus30` for the 30-day due-date offset computed by the
source's Date arithmetic), the DynamoDB contents, and the outcome each
remote call would have. An `Except.error` oracle models the corresponding
AWS SDK rejection or HTTP non-2xx response. -/
structure World where
  config : Config
  now : String
  nowPlus30 : String
  store : Store
  storeGetFails : Bool
  sqsSend : Except String Unit
  snsPublish : Except String Unit
  stripeCustomer : Except (Nat × String) StripeCustomer
  fikenContacts : Except (Nat × String) (List FikenContact)
  fikenCreateContact : Except (Nat × String) (Option String)
  fikenCreateInvoice : Except (Nat × String) (Option String)
  fikenSendInvoice : Except (Nat × String) Unit

/-- The eight required-environment-variable checks at the top of
`processStripeEvent` (source lines 64-71), in source order. -/
def configCheck (c : Config) : Option PError :=
  if truthyS c.bankAccountCode = false then some (.configMissing "FIKEN_BANK_ACCOUNT_CODE")
  else if truthyS c.paymentAccount = false then some (.configMissing "FIKEN_PAYMENT_ACCOUNT")
  else if truthyS c.companySlug = false then some (.configMissing "FIKEN_COMPANY_SLUG")
  else if truthyS c.fikenToken = false then some (.configMissing "FIKEN_API_TOKEN")
  else if truthyS c.stripeApiKey = false then some (.configMissing "STRIPE_API_KEY")
  else if truthyS c.tableName = false then some (.configMissing "DDB_TABLE")
  else if truthyS c.retryQueueUrl = false then some (.configMissing "STRIPE_RETRY_QUEUE_URL")
  else if truthyS c.snsTopicArn = false then some (.configMissing "MANUAL_ORDER_SNS_TOPIC")
  else none

/-- JS `charge.currency ? charge.currency.toUpperCase() : null` (source
line 78). -/
def currencyOf (charge : Charge) : Option String :=
  match charge.currency with
  | some s => if s = "" then none else some (jsToUpper s)
  | none => none

/-- The truthiness test `!charge.metadata || !charge.metadata.order_number`
(source line 88), returning the order number when it passes. -/
def orderNumberOf (charge : Charge) : Option String :=
  match charge.metadata with
  | none => none
  | some m =>
    match m.order_number with
    | none => none
    | some s => if s = "" then none else some s

/-- Helper `sendRetryMessage` (source lines 23-37): an SQS SendMessage with
`DelaySeconds: 5`; an SDK rejection is rethrown. -/
def sendRetryMessage (w : World) (messageBody : RetryPayload) : Except PError (RetryPayload × Nat) :=
  match w.sqsSend with
  | Except.error e => Except.error (PError.sqsError e)
  | Except.ok _ => Except.ok (messageBody, 5)

/-- Helper `sendManualOrderNotification` (source lines 40-59): an SNS publish
whose subject names the charge; an SDK rejection is rethrown. -/
def sendManualOrderNotification (w : World) (charge : Charge) : Except PError ManualAlert :=
  match w.snsPublish with
  | Except.error e => Except.error (PError.snsError e)
  | Except.ok _ =>
    Except.ok
      { subject := "Manual order handling required for charge " ++ charge.id
        note := "A charge requires manual order handling due to missing metadata"
        charge := charge
        timestamp := w.now }

/-- Invoice line construction from the stored order items (source lines
210-222): the common currency/vatType/incomeAccount properties spread into
each line, and `unitPrice: item.unit_price * 100` — one JS double
multiplication. -/
def buildInvoiceLines (currency : String) (isNorwegian : Bool) (items : List OrderItem) : List InvoiceLine :=
  items.map fun item =>
    { currency := currency
      vatType := if isNorwegian then "HIGH" else "EXEMPT_IMPORT_EXPORT"
      incomeAccount := if isNorwegian then 3010 else 3110
      productName := item.name
      description := item.name
      comment := "#" ++ item.id
      unitPrice := jsMul item.unit_price 100
      quantity := item.quantity }

/-- The membership set of country-name variants mapped to Norwegian (source
line 152). -/
def norwegianCountryNames : List String := ["NO", "NORWAY", "NORGE", "NOREG", "NOR"]

/-- The tail of the order-found path once the Fiken contact id is known
(source lines 209-307): build the invoice lines from the stored items,
create the invoice, and send it by email. `callsC` are the remote calls
already made by the stage. -/
def invoiceFinish (w : World) (currency : String) (isNorwegian : Bool)
    (customerName : Option String) (email : String) (konverzkyOrderId : String)
    (orderRecord : OrderRecord) (newContactId : Option String) (callsC : List LedgerCall) :
    Except PError Response × Effects :=
  let lines := buildInvoiceLines currency isNorwegian orderRecord.items
  let invoicePayload : InvoicePayload :=
    { issueDate := (w.now.splitOn "T").headD ""
      dueDate := (w.nowPlus30.splitOn "T").headD ""
      lines := lines
      bankAccountCode := jsStr w.config.bankAccountCode
      paymentAccount := jsStr w.config.paymentAccount
      cash := true
      customerId := newContactId
      currency := jsToUpper currency
      invoiceText :=
        if isNorwegian then "Faktura for produkter kjøpt via Pattern Magicians."
        else "Invoice for products purchased via Pattern Magicians."
      yourReference := konverzkyOrderId }
  let callsI := callsC ++ [LedgerCall.fikenCreateInvoice invoicePayload]
  match w.fikenCreateInvoice with
  | Except.error (st, txt) =>
    (Except.error (.fikenCreateInvoice st txt), { noEffects with ledgerCalls := callsI })
  | Except.ok none =>
    (Except.error .invoiceNoLocation, { noEffects with ledgerCalls := callsI })
  | Except.ok (some loc) =>
    let newInvoiceId := (loc.splitOn "/").getLastD ""
    let messageText :=
      if isNorwegian then
        "Hei " ++ jsStr customerName ++
          ",\n\nDU HAR ALLEREDE BETALT, IKKE PRØV Å BETAL IGJEN\n\nVi har mottatt din betaling.\n\nHer er din kvittering (PDF).\n\nTakk for din støtte!"
      else
        "Dear " ++ jsStr customerName ++
          ",\n\nYOU HAVE PAID, PLEASE DO NOT TRY TO PAY AGAIN\n\nPlease find attached your receipt (PDF) for your recent purchase.\n\nThank you for your support!"
    let sendInvoicePayload : SendPayload :=
      { invoiceId := newInvoiceId
        recipientEmail := email
        recipientName := customerName
        message := messageText
        method := ["email"]
        subject := "Your receipt from Pattern Magicians"
        emailSendOption := "attachment" }
    let callsS := callsI ++ [LedgerCall.fikenSendInvoice sendInvoicePayload]
    match w.fikenSendInvoice with
    | Except.error (st, txt) =>
      (Except.error (.fikenSendInvoice st txt), { noEffects with ledgerCalls := callsS })
    | Except.ok _ =>
      (Except.ok
        { statusCode := 200,
          body := RespBody.msg "Contact and invoice created and sent via email successfully" },
       { noEffects with ledgerCalls := callsS })

/-- The contact lookup-or-create step (source lines 154-207): query Fiken
contacts by member number; reuse the first hit, otherwise create a contact
and take its id from the Location header; then `invoiceFinish`. -/
def contactStage (w : World) (currency : String) (customerId : String)
    (konverzkyOrderId : String) (orderRecord : OrderRecord)
    (customerName customerEmail : Option String) (email : String)
    (customerAddress : StripeAddress) (customerCountry : String) :
    Except PError Response × Effects :=
  match w.fikenContacts with
  | Except.error (st, txt) =>
    (Except.error (.fikenGetContacts st txt),
     { noEffects with ledgerCalls :=
        [LedgerCall.stripeGetCustomer customerId, LedgerCall.fikenGetContacts customerId] })
  | Except.ok contacts =>
    match contacts with
    | c :: _ =>
      invoiceFinish w currency (jsToUpper customerCountry ∈ norwegianCountryNames)
        customerName email konverzkyOrderId orderRecord (jsOrS c.id c.contactId)
        [LedgerCall.stripeGetCustomer customerId, LedgerCall.fikenGetContacts customerId]
    | [] =>
      let isNorwegian := jsToUpper customerCountry ∈ norwegianCountryNames
      let contactPayload : ContactPayload :=
        { customer := true
          name := customerName
          email := customerEmail
          memberNumberString := customerId
          language := if isNorwegian then "Norwegian" else "English"
          address :=
            { streetAddress := customerAddress.line1
              streetAddressLine2 := customerAddress.line2
              city := customerAddress.city
              postCode := customerAddress.postal_code
              country := customerCountry } }
      let calls3 :=
        [LedgerCall.stripeGetCustomer customerId, LedgerCall.fikenGetContacts customerId]
          ++ [LedgerCall.fikenCreateContact contactPayload]
      match w.fikenCreateContact with
      | Except.error (st, txt) =>
        (Except.error (.fikenCreateContact st txt), { noEffects with ledgerCalls := calls3 })
      | Except.ok none =>
        (Except.error .contactNoLocation, { noEffects with ledgerCalls := calls3 })
      | Except.ok (some loc) =>
        invoiceFinish w currency isNorwegian customerName email konverzkyOrderId orderRecord
          (some ((loc.splitOn "/").getLastD "")) calls3

/-- The customer-detail extraction and checks (source lines 145-152): derive
email, name, address and country with JS `||` fallbacks, failing when email
or country is absent. -/
def customerChecks (w : World) (charge : Charge) (currency : String) (customerId : String)
    (konverzkyOrderId : String) (orderRecord : OrderRecord) (stripeCustomer : StripeCustomer) :
    Except PError Response × Effects :=
  match truthyOpt (jsOrS stripeCustomer.email charge.receipt_email) with
  | none =>
    (Except.error (.missingEmail charge.id),
     { noEffects with ledgerCalls := [LedgerCall.stripeGetCustomer customerId] })
  | some email =>
    match truthyOpt (jsOrS
        (stripeCustomer.address.getD
          { line1 := none, line2 := none, city := none, postal_code := none,
            country := none, state := none }).country
        (stripeCustomer.address.getD
          { line1 := none, line2 := none, city := none, postal_code := none,
            country := none, state := none }).state) with
    | none =>
      (Except.error (.missingCountry charge.id),
       { noEffects with ledgerCalls := [LedgerCall.stripeGetCustomer customerId] })
    | some customerCountry =>
      contactStage w currency customerId konverzkyOrderId orderRecord
        (jsOrS stripeCustomer.name (jsOrS stripeCustomer.email charge.receipt_email))
        (jsOrS stripeCustomer.email charge.receipt_email)
        email
        (stripeCustomer.address.getD
          { line1 := none, line2 := none, city := none, postal_code := none,
            country := none, state := none })
        customerCountry

/-- The order-found tail of `processStripeEvent` (source lines 129-307):
fetch the Stripe customer, then `customerChecks` → `contactStage` →
`invoiceFinish`. Returns the outcome together with the remote calls this
stage performed. -/
def invoiceStage (w : World) (charge : Charge) (currency : String) (customerId : String)
    (konverzkyOrderId : String) (orderRecord : OrderRecord) : Except PError Response × Effects :=
  match w.stripeCustomer with
  | Except.error (st, txt) =>
    (Except.error (.stripeApi st txt),
     { noEffects with ledgerCalls := [LedgerCall.stripeGetCustomer customerId] })
  | Except.ok stripeCustomer =>
    customerChecks w charge currency customerId konverzkyOrderId orderRecord stripeCustomer

/-- The common Stripe-event processor (source lines 62-307): config checks,
charge and currency validation, event-type filter, missing-order-number
notification, customer check, DynamoDB lookup, retry enqueue on a miss, and
the invoice stage on a hit. -/
def processStripeEvent (w : World) (stripeEvent : StripeEvent) : Except PError Response × Effects :=
  match configCheck w.config with
  | some e => (Except.error e, noEffects)
  | none =>
    match stripeEvent.dataObject with
    | none => (Except.error PError.chargeMissing, noEffects)
    | some charge =>
      match currencyOf charge with
      | none => (Except.error (PError.missingCurrency charge.id), noEffects)
      | some currency =>
        if stripeEvent.type = "charge.succeeded" then
          match orderNumberOf charge with
          | none =>
            match sendManualOrderNotification w charge with
            | Except.error e => (Except.error e, noEffects)
            | Except.ok alert =>
              (Except.ok { statusCode := 200, body := RespBody.msg "Manual order handling notification sent" },
               { noEffects with alerts := [alert] })
          | some konverzkyOrderId =>
            match truthyOpt charge.customer with
            | none => (Except.error (PError.missingCustomer charge.id), noEffects)
            | some customerId =>
              if w.storeGetFails then
                (Except.error PError.dbRead, { noEffects with storeReads := [konverzkyOrderId] })
              else
                match w.store konverzkyOrderId with
                | none =>
                  let retryPayload : RetryPayload :=
                    { order_number := konverzkyOrderId, stripeEvent := stripeEvent, timestamp := w.now }
                  match sendRetryMessage w retryPayload with
                  | Except.error e => (Except.error e, { noEffects with storeReads := [konverzkyOrderId] })
                  | Except.ok sent =>
                    (Except.ok { statusCode := 200, body := RespBody.err "Order not found, event queued for retry" },
                     { noEffects with storeReads := [konverzkyOrderId], retries := [sent] })
                | some orderRecord =>
                  let staged := invoiceStage w charge currency customerId konverzkyOrderId orderRecord
                  (staged.1, { staged.2 with storeReads := konverzkyOrderId :: staged.2.storeReads })
        else
          (Except.ok { statusCode := 200, body := RespBody.msg stripeEvent.type }, noEffects)

/-- The lambda input: either an SQS batch (each record body parsed as a
retry payload, `none` for invalid JSON) or a direct invocation (body parsed
as a Stripe event, `none` for invalid JSON). -/
inductive LambdaEvent where
  | sqsRecords (records : List (Option RetryPayload))
  | direct (body : Option StripeEvent)

/-- Process the records of an SQS batch (source lines 315-320). The source
runs them through `Promise.all`; the model processes them in order and
propagates the first rejection, which is what the surrounding try/catch
observes. -/
def processRecords (w : World) : List (Option RetryPayload) → Except PError (List Response) × Effects
  | [] => (Except.ok [], noEffects)
  | r :: rs =>
    let one : Except PError Response × Effects :=
      match r with
      | none => (Except.error PError.jsonParse, noEffects)
      | some payload => processStripeEvent w payload.stripeEvent
    match one with
    | (Except.error e, eff) => (Except.error e, eff)
    | (Except.ok resp, eff) =>
      match processRecords w rs with
      | (Except.error e, eff2) =>
        (Except.error e,
         { storeReads := eff.storeReads ++ eff2.storeReads
           retries := eff.retries ++ eff2.retries
           alerts := eff.alerts ++ eff2.alerts
           ledgerCalls := eff.ledgerCalls ++ eff2.ledgerCalls })
      | (Except.ok resps, eff2) =>
        (Except.ok (resp :: resps),
         { storeReads := eff.storeReads ++ eff2.storeReads
           retries := eff.retries ++ eff2.retries
           alerts := eff.alerts ++ eff2.alerts
           ledgerCalls := eff.ledgerCalls ++ eff2.ledgerCalls })

/-- The exported lambda handler (source lines 310-338): SQS batches and
direct invocations are routed to `processStripeEvent`, and every thrown
error is caught and turned into a 500 response carrying the error message. -/
def handler (w : World) (event : LambdaEvent) : Response × Effects :=
  match event with
  | LambdaEvent.sqsRecords rs =>
    match processRecords w rs with
    | (Except.ok _, eff) =>
      ({ statusCode := 200, body := RespBody.batch "All SQS records processed successfully" }, eff)
    | (Except.error e, eff) => ({ statusCode := 500, body := RespBody.err (PError.message e) }, eff)
  | LambdaEvent.direct none =>
    ({ statusCode := 500, body := RespBody.err (PError.message PError.jsonParse) }, noEffects)
  | LambdaEvent.direct (some stripeEvent) =>
    match processStripeEvent w stripeEvent with
    | (Except.ok r, eff) => (r, eff)
    | (Except.error e, eff) => ({ statusCode := 500, body := RespBody.err (PError.message e) }, eff)

end StripeWebhook

/-! Concrete scenario data used by witnesses and counterexamples. -/

/-- A configuration with all eight environment variables set. -/
def cfgOk : StripeWebhook.Config :=
  { bankAccountCode := some "1920:10001"
    paymentAccount := some "1920:10001"
    companySlug := some "pattern-magicians"
    fikenToken := some "fiken-token-1"
    stripeApiKey := some "sk-test-1"
    tableName := some "konverzky-orders"
    retryQueueUrl := some "https://sqs.example/retry"
    snsTopicArn := some "arn:aws:sns:manual-orders" }

/-- A store holding no order at all. -/
def emptyStore : Store := fun _ => none

/-- A Stripe customer with a United States address (foreign to Norway). -/
def scOk : StripeWebhook.StripeCustomer :=
  { email := some "alice@example.com"
    name := some "Alice"
    address := some
      { line1 := some "1 Main St", line2 := none, city := some "Springfield"
        postal_code := some "12345", country := some "US", state := none } }

/-- A healthy environment: valid configuration, empty store, and every
remote call succeeding. -/
def wOk : StripeWebhook.World :=
  { config := cfgOk
    now := "2026-01-02T10:00:00.000Z"
    nowPlus30 := "2026-02-01T10:00:00.000Z"
    store := emptyStore
    storeGetFails := false
    sqsSend := Except.ok ()
    snsPublish := Except.ok ()
    stripeCustomer := Except.ok scOk
    fikenContacts := Except.ok [{ id := some "77", contactId := none }]
    fikenCreateContact := Except.ok (some "companies/pm/contacts/88")
    fikenCreateInvoice := Except.ok (some "companies/pm/invoices/inv9")
    fikenSendInvoice := Except.ok () }

/-- Scenario B charge: order number 999, currency and customer present. -/
def chargeB : StripeWebhook.Charge :=
  { id := "ch_B", currency := some "usd", customer := some "cus_1"
    metadata := some { order_number := some "999" }, receipt_email := none }

/-- Scenario B event: charge.succeeded for an order absent from the store. -/
def evB : StripeWebhook.StripeEvent := { type := "charge.succeeded", dataObject := some chargeB }

/-- The retry message Scenario B enqueues. -/
def retryB : StripeWebhook.RetryPayload :=
  { order_number := "999", stripeEvent := evB, timestamp := wOk.now }

/-- Scenario D charge: a valid charge carried by an unsupported event type. -/
def chargeD : StripeWebhook.Charge :=
  { id := "ch_D", currency := some "usd", customer := some "cus_2"
    metadata := some { order_number := some "123" }, receipt_email := none }

/-- Scenario D event: charge.failed. -/
def evD : StripeWebhook.StripeEvent := { type := "charge.failed", dataObject := some chargeD }

/-- Scenario C charge: no metadata at all, customer present. -/
def chargeC : StripeWebhook.Charge :=
  { id := "ch_C", currency := some "usd", customer := some "cus_3"
    metadata := none, receipt_email := none }

/-- Scenario C event: charge.succeeded without an order number. -/
def evC : StripeWebhook.StripeEvent := { type := "charge.succeeded", dataObject := some chargeC }

/-- A charge missing both the order number and the customer reference. -/
def chargeC9 : StripeWebhook.Charge :=
  { id := "ch_9", currency := some "usd", customer := none
    metadata := none, receipt_email := none }

/-- Event for `chargeC9`. -/
def evC9 : StripeWebhook.StripeEvent := { type := "charge.succeeded", dataObject := some chargeC9 }

/-- A charge.failed event whose charge has no currency code. -/
def chargeNoCurrency : StripeWebhook.Charge :=
  { id := "ch_nc", currency := none, customer := none, metadata := none, receipt_email := none }

/-- Event for `chargeNoCurrency`. -/
def evNoCurrency : StripeWebhook.StripeEvent :=
  { type := "charge.failed", dataObject := some chargeNoCurrency }

/-- Scenario A stored line item: the double written for the JSON literal
9.99, quantity 2, vat 0. -/
def itemA : OrderItem :=
  { name := "Widget", id := "w1", quantity := 2, unit_price := fl64 (999 / 100), vat := 0 }

/-- Scenario A stored order record for order id 123. -/
def recordA : OrderRecord :=
  { order_id := "123", items := [itemA]
    last_updated := "2026-01-01T09:00:00.000Z", webhook_types := ["order_paid"] }

/-- Scenario A charge: currency usd, order number 123, customer present. -/
def chargeA : StripeWebhook.Charge :=
  { id := "ch_A", currency := some "usd", customer := some "cus_9"
    metadata := some { order_number := some "123" }, receipt_email := none }

/-- Scenario A event. -/
def evA : StripeWebhook.StripeEvent := { type := "charge.succeeded", dataObject := some chargeA }

/-- Scenario A environment: the healthy world with order 123 in the store. -/
def wA : StripeWebhook.World :=
  { wOk with store := fun k => if k = "123" then some recordA else none }

/-! Shared lemmas about `processStripeEvent`. -/

/-- The complete behaviour of the order-absent branch: a valid
charge.succeeded event whose order id misses the store enqueues exactly one
retry message (the three-field payload, DelaySeconds 5), reads the store
once, makes no Ledger API call, sends no notification, and returns 200. -/
theorem process_retry_branch (w : StripeWebhook.World) (ev : StripeWebhook.StripeEvent)
    (charge : StripeWebhook.Charge) (cur ord cid : String)
    (hcfg : StripeWebhook.configCheck w.config = none)
    (hobj : ev.dataObject = some charge)
    (hcur : StripeWebhook.currencyOf charge = some cur)
    (htype : ev.type = "charge.succeeded")
    (hord : StripeWebhook.orderNumberOf charge = some ord)
    (hcust : truthyOpt charge.customer = some cid)
    (hget : w.storeGetFails = false)
    (hmiss : w.store ord = none)
    (hsqs : w.sqsSend = Except.ok ()) :
    StripeWebhook.processStripeEvent w ev =
      (Except.ok { statusCode := 200, body := RespBody.err "Order not found, event queued for retry" },
       { storeReads := [ord]
         retries := [({ order_number := ord, stripeEvent := ev, timestamp := w.now }, 5)]
         alerts := [], ledgerCalls := [] }) := by
  simp only [StripeWebhook.processStripeEvent, StripeWebhook.sendRetryMessage,
    hcfg, hobj, hcur, htype, hord, hcust, hget, hmiss, hsqs]
  simp [StripeWebhook.noEffects]

/-- The complete behaviour of the missing-order-number branch: one SNS
notification, a 200 response, and no other side effect, for every store
state. -/
theorem process_notify_branch (w : StripeWebhook.World) (ev : StripeWebhook.StripeEvent)
    (charge : StripeWebhook.Charge) (cur : String)
    (hcfg : StripeWebhook.configCheck w.config = none)
    (hobj : ev.dataObject = some charge)
    (hcur : StripeWebhook.currencyOf charge = some cur)
    (htype : ev.type = "charge.succeeded")
    (hord : StripeWebhook.orderNumberOf charge = none)
    (hsns : w.snsPublish = Except.ok ()) :
    StripeWebhook.processStripeEvent w ev =
      (Except.ok { statusCode := 200, body := RespBody.msg "Manual order handling notification sent" },
       { storeReads := [], retries := []
         alerts := [{ subject := "Manual order handling required for charge " ++ charge.id
                      note := "A charge requires manual order handling due to missing metadata"
                      charge := charge, timestamp := w.now }]
         ledgerCalls := [] }) := by
  simp only [StripeWebhook.processStripeEvent, StripeWebhook.sendManualOrderNotification,
    hcfg, hobj, hcur, htype, hord, hsns]
  simp [StripeWebhook.noEffects]

/-- Every error the config check can produce is a `configMissing`. -/
theorem configCheck_shape (c : StripeWebhook.Config) (e : StripeWebhook.PError)
    (h : StripeWebhook.configCheck c = some e) :
    ∃ v, e = StripeWebhook.PError.configMissing v := by
  unfold StripeWebhook.configCheck at h
  repeat' split at h
  all_goals cases h
  all_goals exact ⟨_, rfl⟩

/-- The invoice-finish tail never fails with the missing-customer error. -/
theorem invoiceFinish_ne_missingCustomer (w : StripeWebhook.World) (cur : String)
    (isN : Bool) (cn : Option String) (email oid : String) (rec : OrderRecord)
    (ncid : Option String) (calls : List StripeWebhook.LedgerCall) (x : String) :
    (StripeWebhook.invoiceFinish w cur isN cn email oid rec ncid calls).1 ≠
      Except.error (StripeWebhook.PError.missingCustomer x) := by
  unfold StripeWebhook.invoiceFinish
  repeat' split
  all_goals intro hcon
  all_goals first
    | exact Except.noConfusion hcon
    | exact StripeWebhook.PError.noConfusion (Except.error.inj hcon)

/-- The contact stage never fails with the missing-customer error. -/
theorem contactStage_ne_missingCustomer (w : StripeWebhook.World) (cur cid oid : String)
    (rec : OrderRecord) (cn ce : Option String) (email : String)
    (addr : StripeWebhook.StripeAddress) (country : String) (x : String) :
    (StripeWebhook.contactStage w cur cid oid rec cn ce email addr country).1 ≠
      Except.error (StripeWebhook.PError.missingCustomer x) := by
  unfold StripeWebhook.contactStage
  cases hfc : w.fikenContacts with
  | error p =>
    obtain ⟨st, txt⟩ := p
    exact fun hcon => StripeWebhook.PError.noConfusion (Except.error.inj hcon)
  | ok contacts =>
    cases contacts with
    | cons c cs => exact invoiceFinish_ne_missingCustomer w cur _ cn email oid rec _ _ x
    | nil =>
      cases hcc : w.fikenCreateContact with
      | error p =>
        obtain ⟨st, txt⟩ := p
        exact fun hcon => StripeWebhook.PError.noConfusion (Except.error.inj hcon)
      | ok o =>
        cases o with
        | none => exact fun hcon => StripeWebhook.PError.noConfusion (Except.error.inj hcon)
        | some loc => exact invoiceFinish_ne_missingCustomer w cur _ cn email oid rec _ _ x

/-- The customer-check stage never fails with the missing-customer error. -/
theorem customerChecks_ne_missingCustomer (w : StripeWebhook.World)
    (charge : StripeWebhook.Charge) (cur cid oid : String) (rec : OrderRecord)
    (sc : StripeWebhook.StripeCustomer) (x : String) :
    (StripeWebhook.customerChecks w charge cur cid oid rec sc).1 ≠
      Except.error (StripeWebhook.PError.missingCustomer x) := by
  unfold StripeWebhook.customerChecks
  cases truthyOpt (jsOrS sc.email charge.receipt_email) with
  | none => exact fun hcon => StripeWebhook.PError.noConfusion (Except.error.inj hcon)
  | some email =>
    cases truthyOpt (jsOrS
        (sc.address.getD
          { line1 := none, line2 := none, city := none, postal_code := none,
            country := none, state := none }).country
        (sc.address.getD
          { line1 := none, line2 := none, city := none, postal_code := none,
            country := none, state := none }).state) with
    | none => exact fun hcon => StripeWebhook.PError.noConfusion (Except.error.inj hcon)
    | some country => exact contactStage_ne_missingCustomer w cur cid oid rec _ _ email _ country x

/-- Every error `sendManualOrderNotification` can produce is an `snsError`. -/
theorem sendManual_shape (w : StripeWebhook.World) (charge : StripeWebhook.Charge)
    (e : StripeWebhook.PError)
    (h : StripeWebhook.sendManualOrderNotification w charge = Except.error e) :
    ∃ s, e = StripeWebhook.PError.snsError s := by
  unfold StripeWebhook.sendManualOrderNotification at h
  split at h
  · exact ⟨_, (Except.error.inj h).symm⟩
  · cases h

/-- Every error `sendRetryMessage` can produce is an `sqsError`. -/
theorem sendRetry_shape (w : StripeWebhook.World) (p : StripeWebhook.RetryPayload)
    (e : StripeWebhook.PError)
    (h : StripeWebhook.sendRetryMessage w p = Except.error e) :
    ∃ s, e = StripeWebhook.PError.sqsError s := by
  unfold StripeWebhook.sendRetryMessage at h
  split at h
  · exact ⟨_, (Except.error.inj h).symm⟩
  · cases h

/-- The invoice stage can fail in many ways, but never with the
missing-customer error: that check happens earlier, in
`processStripeEvent`, before the store is read. -/
theorem invoiceStage_ne_missingCustomer (w : StripeWebhook.World) (charge : StripeWebhook.Charge)
    (cur cid oid : String) (rec : OrderRecord) (x : String) :
    (StripeWebhook.invoiceStage w charge cur cid oid rec).1 ≠
      Except.error (StripeWebhook.PError.missingCustomer x) := by
  unfold StripeWebhook.invoiceStage
  cases hsc : w.stripeCustomer with
  | error p =>
    obtain ⟨st, txt⟩ := p
    exact fun hcon => StripeWebhook.PError.noConfusion (Except.error.inj hcon)
  | ok sc => exact customerChecks_ne_missingCustomer w charge cur cid oid rec sc x

/-! Claims C1, C3, C4, C5. -/

/-- C1 (amended): for every valid charge.succeeded event whose order id is
absent from the store, the engine enqueues exactly one retry envelope
consisting of the three fields order_number, stripeEvent and timestamp —
it carries no attempt counter — with a 200 response and no Ledger API call. -/
theorem C1_retry_envelope_no_attempt (w : StripeWebhook.World) (ev : StripeWebhook.StripeEvent)
    (charge : StripeWebhook.Charge) (cur ord cid : String)
    (hcfg : StripeWebhook.configCheck w.config = none)
    (hobj : ev.dataObject = some charge)
    (hcur : StripeWebhook.currencyOf charge = some cur)
    (htype : ev.type = "charge.succeeded")
    (hord : StripeWebhook.orderNumberOf charge = some ord)
    (hcust : truthyOpt charge.customer = some cid)
    (hget : w.storeGetFails = false)
    (hmiss : w.store ord = none)
    (hsqs : w.sqsSend = Except.ok ()) :
    (StripeWebhook.processStripeEvent w ev).2.retries =
      [({ order_number := ord, stripeEvent := ev, timestamp := w.now }, 5)] ∧
    (StripeWebhook.processStripeEvent w ev).1 =
      Except.ok { statusCode := 200, body := RespBody.err "Order not found, event queued for retry" } ∧
    (StripeWebhook.processStripeEvent w ev).2.ledgerCalls = [] := by
  rw [process_retry_branch w ev charge cur ord cid hcfg hobj hcur htype hord hcust hget hmiss hsqs]
  exact ⟨rfl, rfl, rfl⟩

/-- C1 witness: Scenario B (order 999 absent) enqueues exactly the envelope
`retryB` and makes no Ledger API call. -/
theorem C1_retry_envelope_no_attempt_witness :
    (StripeWebhook.processStripeEvent wOk evB).2.retries = [(retryB, 5)] ∧
    (StripeWebhook.processStripeEvent wOk evB).1 =
      Except.ok { statusCode := 200, body := RespBody.err "Order not found, event queued for retry" } ∧
    (StripeWebhook.processStripeEvent wOk evB).2.ledgerCalls = [] :=
  C1_retry_envelope_no_attempt wOk evB chargeB (jsToUpper "usd") "999" "cus_1"
    rfl rfl rfl rfl rfl rfl rfl rfl rfl

/-- C1 counterexample: the claimed attempt counter does not exist. In
Scenario B the enqueued payload is `retryB`; redelivering it (the SQS
handler reprocesses `retryB.stripeEvent`) enqueues a payload equal to
`retryB` again, so no attempt function on retry payloads can both be 1 on
the first envelope and incoming+1 on the requeued one. -/
theorem C1_attempt_counter_counterexample :
    (StripeWebhook.processStripeEvent wOk evB).2.retries = [(retryB, 5)] ∧
    (StripeWebhook.processStripeEvent wOk retryB.stripeEvent).2.retries = [(retryB, 5)] ∧
    ¬ ∃ att : StripeWebhook.RetryPayload → ℕ,
        att retryB = 1 ∧
        ∀ p ∈ (StripeWebhook.processStripeEvent wOk retryB.stripeEvent).2.retries,
          att p.1 = att retryB + 1 := by
  refine ⟨rfl, rfl, ?_⟩
  rintro ⟨att, h1, h2⟩
  have h3 : att retryB = att retryB + 1 := h2 (retryB, 5)
    (by rw [show (StripeWebhook.processStripeEvent wOk retryB.stripeEvent).2.retries
          = [(retryB, 5)] from rfl]; exact List.mem_singleton.mpr rfl)
  omega

/-- C3 (amended): a payment event whose type is not charge.succeeded is
ignored with a 200 response naming the type, with no store read, no retry,
no notification and no Ledger API call — provided the charge object and a
non-empty currency are present (the source checks those first). -/
theorem C3_ignored_nonsucceeded (w : StripeWebhook.World) (ev : StripeWebhook.StripeEvent)
    (charge : StripeWebhook.Charge) (cur : String)
    (hcfg : StripeWebhook.configCheck w.config = none)
    (hobj : ev.dataObject = some charge)
    (hcur : StripeWebhook.currencyOf charge = some cur)
    (htype : ev.type ≠ "charge.succeeded") :
    StripeWebhook.processStripeEvent w ev =
      (Except.ok { statusCode := 200, body := RespBody.msg ev.type }, StripeWebhook.noEffects) := by
  simp only [StripeWebhook.processStripeEvent, hcfg, hobj, hcur]
  simp [htype]

/-- C3 witness: Scenario D (charge.failed with a currency) is ignored with a
200 response and performs no side effect at all. -/
theorem C3_ignored_nonsucceeded_witness :
    StripeWebhook.processStripeEvent wOk evD =
      (Except.ok { statusCode := 200, body := RespBody.msg evD.type }, StripeWebhook.noEffects) :=
  C3_ignored_nonsucceeded wOk evD chargeD (jsToUpper "usd") rfl rfl rfl (by decide)

/-- C3 counterexample: a charge.failed event whose charge lacks a currency
code is not ignored with success — the currency check precedes the type
check, so processing throws and the lambda answers 500. -/
theorem C3_missing_currency_counterexample :
    StripeWebhook.processStripeEvent wOk evNoCurrency =
      (Except.error (StripeWebhook.PError.missingCurrency "ch_nc"), StripeWebhook.noEffects) ∧
    (StripeWebhook.handler wOk (StripeWebhook.LambdaEvent.direct (some evNoCurrency))).1.statusCode = 500 :=
  ⟨rfl, rfl⟩

/-- C4: a valid charge.succeeded event whose order is not in the store is
not an error: the response is a 200, the event is enqueued with the fixed
DelaySeconds of 5, and no Ledger API call and no notification happen. -/
theorem C4_order_absent_retry (w : StripeWebhook.World) (ev : StripeWebhook.StripeEvent)
    (charge : StripeWebhook.Charge) (cur ord cid : String)
    (hcfg : StripeWebhook.configCheck w.config = none)
    (hobj : ev.dataObject = some charge)
    (hcur : StripeWebhook.currencyOf charge = some cur)
    (htype : ev.type = "charge.succeeded")
    (hord : StripeWebhook.orderNumberOf charge = some ord)
    (hcust : truthyOpt charge.customer = some cid)
    (hget : w.storeGetFails = false)
    (hmiss : w.store ord = none)
    (hsqs : w.sqsSend = Except.ok ()) :
    (StripeWebhook.processStripeEvent w ev).1 =
      Except.ok { statusCode := 200, body := RespBody.err "Order not found, event queued for retry" } ∧
    (StripeWebhook.processStripeEvent w ev).2.retries.map Prod.snd = [5] ∧
    (StripeWebhook.processStripeEvent w ev).2.ledgerCalls = [] ∧
    (StripeWebhook.processStripeEvent w ev).2.alerts = [] := by
  rw [process_retry_branch w ev charge cur ord cid hcfg hobj hcur htype hord hcust hget hmiss hsqs]
  exact ⟨rfl, rfl, rfl, rfl⟩

/-- C4 witness: Scenario B returns success, enqueues with delay 5, and makes
no Ledger API call. -/
theorem C4_order_absent_retry_witness :
    (StripeWebhook.processStripeEvent wOk evB).1 =
      Except.ok { statusCode := 200, body := RespBody.err "Order not found, event queued for retry" } ∧
    (StripeWebhook.processStripeEvent wOk evB).2.retries.map Prod.snd = [5] ∧
    (StripeWebhook.processStripeEvent wOk evB).2.ledgerCalls = [] ∧
    (StripeWebhook.processStripeEvent wOk evB).2.alerts = [] :=
  C4_order_absent_retry wOk evB chargeB (jsToUpper "usd") "999" "cus_1"
    rfl rfl rfl rfl rfl rfl rfl rfl rfl

/-- C5: a charge.succeeded event with no order number (missing metadata or
missing/empty order_number) dispatches exactly one manual-handling
notification and returns 200, with no retry envelope, no store access and
no Ledger API call. The result is the same for every store state, so a
redelivery of the same event notifies again. -/
theorem C5_missing_order_number_notifies (w : StripeWebhook.World) (ev : StripeWebhook.StripeEvent)
    (charge : StripeWebhook.Charge) (cur : String)
    (hcfg : StripeWebhook.configCheck w.config = none)
    (hobj : ev.dataObject = some charge)
    (hcur : StripeWebhook.currencyOf charge = some cur)
    (htype : ev.type = "charge.succeeded")
    (hord : StripeWebhook.orderNumberOf charge = none)
    (hsns : w.snsPublish = Except.ok ()) :
    StripeWebhook.processStripeEvent w ev =
      (Except.ok { statusCode := 200, body := RespBody.msg "Manual order handling notification sent" },
       { storeReads := [], retries := []
         alerts := [{ subject := "Manual order handling required for charge " ++ charge.id
                      note := "A charge requires manual order handling due to missing metadata"
                      charge := charge, timestamp := w.now }]
         ledgerCalls := [] }) :=
  process_notify_branch w ev charge cur hcfg hobj hcur htype hord hsns

/-- C5 witness: Scenario C (no metadata) notifies and succeeds with no retry
envelope. -/
theorem C5_missing_order_number_notifies_witness :
    StripeWebhook.processStripeEvent wOk evC =
      (Except.ok { statusCode := 200, body := RespBody.msg "Manual order handling notification sent" },
       { storeReads := [], retries := []
         alerts := [{ subject := "Manual order handling required for charge " ++ chargeC.id
                      note := "A charge requires manual order handling due to missing metadata"
                      charge := chargeC, timestamp := wOk.now }]
         ledgerCalls := [] }) :=
  C5_missing_order_number_notifies wOk evC chargeC (jsToUpper "usd") rfl rfl rfl rfl rfl rfl

/-! Claim C9. -/

/-- C9: the missing-order-number check precedes the customer-reference
check. First conjunct: a charge.succeeded event missing both the order
number and the customer is routed to the notification channel with a 200
response (not rejected). Second conjunct: whenever processing fails with
the missing-customer error, the event's charge had an order number. -/
theorem C9_order_check_before_customer :
    (∀ (w : StripeWebhook.World) (ev : StripeWebhook.StripeEvent)
       (charge : StripeWebhook.Charge) (cur : String),
      StripeWebhook.configCheck w.config = none →
      ev.dataObject = some charge →
      StripeWebhook.currencyOf charge = some cur →
      ev.type = "charge.succeeded" →
      StripeWebhook.orderNumberOf charge = none →
      truthyOpt charge.customer = none →
      w.snsPublish = Except.ok () →
      (StripeWebhook.processStripeEvent w ev).1 =
        Except.ok { statusCode := 200, body := RespBody.msg "Manual order handling notification sent" } ∧
      (StripeWebhook.processStripeEvent w ev).2.alerts ≠ []) ∧
    (∀ (w : StripeWebhook.World) (ev : StripeWebhook.StripeEvent) (cid : String)
       (eff : StripeWebhook.Effects),
      StripeWebhook.processStripeEvent w ev =
        (Except.error (StripeWebhook.PError.missingCustomer cid), eff) →
      ∃ charge, ev.dataObject = some charge ∧ StripeWebhook.orderNumberOf charge ≠ none) := by
  constructor
  · intro w ev charge cur hcfg hobj hcur htype hord hcust hsns
    rw [process_notify_branch w ev charge cur hcfg hobj hcur htype hord hsns]
    exact ⟨rfl, by simp⟩
  · intro w ev cid eff h
    unfold StripeWebhook.processStripeEvent at h
    repeat' split at h
    all_goals
      first
        | exact absurd (congrArg Prod.fst h) (invoiceStage_ne_missingCustomer _ _ _ _ _ _ _)
        | (rename_i heq
           obtain ⟨v, rfl⟩ := configCheck_shape _ _ heq
           simp at h)
        | (rename_i heq
           obtain ⟨s, rfl⟩ := sendManual_shape _ _ _ heq
           simp at h)
        | (rename_i heq
           obtain ⟨s, rfl⟩ := sendRetry_shape _ _ _ heq
           simp at h)
        | (rename_i ox charge hobj cx curv hcur htype rx ordv hord ux hcust
           exact ⟨charge, hobj, by rw [hord]; simp⟩)
        | (rename_i ox charge hobj cx curv hcur htype rx ordv hord ux custv hcust hget sx hmiss
           exact ⟨charge, hobj, by rw [hord]; simp⟩)
        | simp at h

/-- C9 witness: the event whose charge has neither metadata nor customer is
notified with a 200 response. -/
theorem C9_order_check_before_customer_witness :
    (StripeWebhook.processStripeEvent wOk evC9).1 =
      Except.ok { statusCode := 200, body := RespBody.msg "Manual order handling notification sent" } ∧
    (StripeWebhook.processStripeEvent wOk evC9).2.alerts ≠ [] :=
  C9_order_check_before_customer.1 wOk evC9 chargeC9 (jsToUpper "usd")
    rfl rfl rfl rfl rfl rfl rfl

/-! Claim C10: totality of the lambda handler. -/

/-- Every successful outcome of the invoice-finish tail is a 200 response. -/
theorem invoiceFinish_ok_status (w : StripeWebhook.World) (cur : String) (isN : Bool)
    (cn : Option String) (email oid : String) (rec : OrderRecord) (ncid : Option String)
    (calls : List StripeWebhook.LedgerCall) (r : Response)
    (h : (StripeWebhook.invoiceFinish w cur isN cn email oid rec ncid calls).1 = Except.ok r) :
    r.statusCode = 200 := by
  unfold StripeWebhook.invoiceFinish at h
  repeat' split at h
  all_goals simp at h
  all_goals subst h
  all_goals rfl

/-- Every successful outcome of the contact stage is a 200 response. -/
theorem contactStage_ok_status (w : StripeWebhook.World) (cur cid oid : String)
    (rec : OrderRecord) (cn ce : Option String) (email : String)
    (addr : StripeWebhook.StripeAddress) (country : String) (r : Response)
    (h : (StripeWebhook.contactStage w cur cid oid rec cn ce email addr country).1 = Except.ok r) :
    r.statusCode = 200 := by
  revert h
  unfold StripeWebhook.contactStage
  cases hfc : w.fikenContacts with
  | error p =>
    obtain ⟨st, txt⟩ := p
    intro h; simp at h
  | ok contacts =>
    cases contacts with
    | cons c cs => exact fun h => invoiceFinish_ok_status _ _ _ _ _ _ _ _ _ _ h
    | nil =>
      cases hcc : w.fikenCreateContact with
      | error p =>
        obtain ⟨st, txt⟩ := p
        intro h; simp at h
      | ok o =>
        cases o with
        | none => intro h; simp at h
        | some loc => exact fun h => invoiceFinish_ok_status _ _ _ _ _ _ _ _ _ _ h

/-- Every successful outcome of the customer checks is a 200 response. -/
theorem customerChecks_ok_status (w : StripeWebhook.World) (charge : StripeWebhook.Charge)
    (cur cid oid : String) (rec : OrderRecord) (sc : StripeWebhook.StripeCustomer) (r : Response)
    (h : (StripeWebhook.customerChecks w charge cur cid oid rec sc).1 = Except.ok r) :
    r.statusCode = 200 := by
  revert h
  unfold StripeWebhook.customerChecks
  cases truthyOpt (jsOrS sc.email charge.receipt_email) with
  | none => intro h; simp at h
  | some email =>
    cases truthyOpt (jsOrS
        (sc.address.getD
          { line1 := none, line2 := none, city := none, postal_code := none,
            country := none, state := none }).country
        (sc.address.getD
          { line1 := none, line2 := none, city := none, postal_code := none,
            country := none, state := none }).state) with
    | none => intro h; simp at h
    | some country => exact fun h => contactStage_ok_status _ _ _ _ _ _ _ _ _ _ _ h

/-- Every successful outcome of the invoice stage is a 200 response. -/
theorem invoiceStage_ok_status (w : StripeWebhook.World) (charge : StripeWebhook.Charge)
    (cur cid oid : String) (rec : OrderRecord) (r : Response)
    (h : (StripeWebhook.invoiceStage w charge cur cid oid rec).1 = Except.ok r) :
    r.statusCode = 200 := by
  revert h
  unfold StripeWebhook.invoiceStage
  cases hsc : w.stripeCustomer with
  | error p =>
    obtain ⟨st, txt⟩ := p
    intro h; simp at h
  | ok sc => exact fun h => customerChecks_ok_status _ _ _ _ _ _ _ _ h

/-- Every successful outcome of `processStripeEvent` is a 200 response. -/
theorem process_ok_status (w : StripeWebhook.World) (ev : StripeWebhook.StripeEvent)
    (r : Response) (h : (StripeWebhook.processStripeEvent w ev).1 = Except.ok r) :
    r.statusCode = 200 := by
  unfold StripeWebhook.processStripeEvent at h
  repeat' split at h
  all_goals first
    | exact invoiceStage_ok_status _ _ _ _ _ _ _ h
    | simp at h
  all_goals try (subst h; rfl)
  rename_i ordv hord custx custv hcust hget storex hmiss
  rcases hrm : StripeWebhook.sendRetryMessage w
      ({ order_number := ordv, stripeEvent := ev, timestamp := w.now } :
        StripeWebhook.RetryPayload) with e | sent <;>
    rw [hrm] at h <;> simp at h
  subst h
  rfl

/-- C10: the lambda handler is total at its public interface — for every
input shape (SQS batch or direct invocation, including unparseable bodies)
and every environment (store failures, remote-API failures, missing
configuration), it returns a response object: either a 200 success or a 500
whose body carries the thrown error's message. -/
theorem C10_handler_total (w : StripeWebhook.World) (ev : StripeWebhook.LambdaEvent) :
    (StripeWebhook.handler w ev).1.statusCode = 200 ∨
    ∃ e : StripeWebhook.PError,
      (StripeWebhook.handler w ev).1 =
        { statusCode := 500, body := RespBody.err (StripeWebhook.PError.message e) } := by
  cases ev with
  | sqsRecords rs =>
    simp only [StripeWebhook.handler]
    rcases hp : StripeWebhook.processRecords w rs with ⟨res, eff⟩
    rcases res with e | resps
    · exact Or.inr ⟨e, rfl⟩
    · exact Or.inl rfl
  | direct body =>
    cases body with
    | none => exact Or.inr ⟨StripeWebhook.PError.jsonParse, rfl⟩
    | some se =>
      simp only [StripeWebhook.handler]
      rcases hp : StripeWebhook.processStripeEvent w se with ⟨res, eff⟩
      rcases res with e | r
      · exact Or.inr ⟨e, rfl⟩
      · exact Or.inl (process_ok_status w se r (by rw [hp]))

/-! Claim C2: unit-price scaling at the Ledger API boundary. -/

/-- The invoice line Scenario A submits for the Widget item: the stored
double for 9.99 put through the source's `item.unit_price * 100`. -/
def lineA : StripeWebhook.InvoiceLine :=
  { currency := jsToUpper "usd"
    vatType := "EXEMPT_IMPORT_EXPORT"
    incomeAccount := 3110
    productName := "Widget"
    description := "Widget"
    comment := "#w1"
    unitPrice := jsMul itemA.unit_price 100
    quantity := 2 }

set_option maxRecDepth 2000 in
/-- C2 evidence. Scenario A itself holds: the create-invoice call carries
one line with unitPrice 999 (the doubles happen to round back to the exact
value for 9.99), quantity 2 and the export account 3110. But the claim's
general sentence — the submitted unit price equals the stored price times
100 exactly, with no rounding — is false on binary64 arithmetic: for the
stored double of 19.99 (the example in the source's own comment, which
demands 1999) the single JS multiplication yields 1999 - 2^-42, which is
neither 1999 nor the exact product. -/
theorem C2_unit_price_scaling_evidence :
    ((StripeWebhook.processStripeEvent wA evA).2.ledgerCalls.filterMap fun c =>
        match c with
        | StripeWebhook.LedgerCall.fikenCreateInvoice ip => some ip.lines
        | _ => none) = [[lineA]] ∧
    lineA.unitPrice = 999 ∧
    lineA.quantity = 2 ∧
    lineA.incomeAccount = 3110 ∧
    lineA.vatType = "EXEMPT_IMPORT_EXPORT" ∧
    jsMul (fl64 (1999 / 100)) 100 ≠ 1999 ∧
    jsMul (fl64 (1999 / 100)) 100 ≠ fl64 (1999 / 100) * 100 ∧
    (jsMul (fl64 (1999 / 100)) 100).num = 8791694975696895 ∧
    (jsMul (fl64 (1999 / 100)) 100).den = 4398046511104 := by
  refine ⟨rfl, ?_, rfl, rfl, rfl, ?_, ?_, ?_, ?_⟩ <;> with_unfolding_all decide

/-! Lemmas about the JS set-union of webhook type tags. -/

/-- Membership after one dedup step. -/
theorem mem_dedupStep (acc : List String) (t x : String) :
    x ∈ dedupStep acc t ↔ x ∈ acc ∨ x = t := by
  unfold dedupStep
  split
  · rename_i hin
    constructor
    · exact Or.inl
    · rintro (hx | rfl)
      · exact hx
      · exact hin
  · simp

/-- A dedup step preserves distinctness. -/
theorem dedupStep_nodup (acc : List String) (t : String) (h : acc.Nodup) :
    (dedupStep acc t).Nodup := by
  unfold dedupStep
  split
  · exact h
  · rename_i hnin
    refine List.Nodup.append h (List.nodup_singleton t) ?_
    intro a ha hat
    rw [List.mem_singleton] at hat
    exact hnin (hat ▸ ha)

/-- A dedup step inserts the element into the set of tags. -/
theorem dedupStep_toFinset (acc : List String) (t : String) :
    (dedupStep acc t).toFinset = insert t acc.toFinset := by
  unfold dedupStep
  split
  · rename_i hin
    exact (Finset.insert_eq_self.mpr (List.mem_toFinset.mpr hin)).symm
  · ext x
    simp [or_comm]

/-- Deduplicating a list with one appended element is one dedup step. -/
theorem jsSetArray_append_single (l : List String) (t : String) :
    jsSetArray (l ++ [t]) = dedupStep (jsSetArray l) t := by
  unfold jsSetArray
  rw [List.foldl_append]
  rfl

/-- Deduplication fixes lists that are already duplicate-free. -/
theorem jsSetArray_eq_self (l : List String) (h : l.Nodup) : jsSetArray l = l := by
  induction l using List.reverseRecOn with
  | nil => rfl
  | append_singleton xs x ih =>
    rw [jsSetArray_append_single]
    rw [List.nodup_append] at h
    rw [ih h.1]
    unfold dedupStep
    rw [if_neg]
    intro hx
    exact h.2.2 hx (List.mem_singleton_self x)

/-- Deduplication preserves membership. -/
theorem jsSetArray_mem (l : List String) (x : String) : x ∈ jsSetArray l ↔ x ∈ l := by
  induction l using List.reverseRecOn with
  | nil => simp [jsSetArray]
  | append_singleton xs t ih =>
    rw [jsSetArray_append_single, mem_dedupStep]
    simp [ih]

/-- One valid upsert through the consumer handler: a 200 response, and the
record at the order id replaced by the new items with the tag unioned into
the stored webhook types (created as a singleton when no record existed). -/
theorem handler_upsert_step (w : Konverzky.KWorld) (oid t : String) (its : List OrderItem)
    (hoid : oid ≠ "") (ht : t ∈ Konverzky.allowedWebhookTypes)
    (hget : w.getFails = false) (hput : w.putFails = false) :
    Konverzky.handler w (some (Konverzky.mkPayload oid its t)) =
      { resp := { statusCode := 200, body := RespBody.msg "Order processed successfully" }
        store := fun k =>
          if k = oid then
            some { order_id := oid, items := its, last_updated := w.now
                   webhook_types :=
                     match w.store oid with
                     | some ex => jsSetArray (ex.webhook_types ++ [t])
                     | none => [t] }
          else w.store k
        conflictWarned :=
          match w.store oid with
          | some ex => decide (ex.items ≠ its)
          | none => false } := by
  unfold Konverzky.handler Konverzky.mkPayload
  simp only [truthyOpt]
  rw [if_pos ht, if_neg hoid, hget, hput]
  simp

/-- Unfolding one upsert of a sequence. -/
theorem runUpserts_cons (w : Konverzky.KWorld) (oid : String) (p : List OrderItem × String)
    (ps : List (List OrderItem × String)) :
    Konverzky.runUpserts w oid (p :: ps) =
      Konverzky.runUpserts
        { w with store := (Konverzky.handler w (some (Konverzky.mkPayload oid p.1 p.2))).store }
        oid ps := rfl

/-- Invariant of a sequence of valid upserts for one order id starting from
an existing record: the final record holds the union of the starting tags
and all new tags, without duplicates, and the items of the last upsert. -/
theorem runUpserts_invariant (oid : String) (hoid : oid ≠ "")
    (inputs : List (List OrderItem × String)) :
    ∀ (w : Konverzky.KWorld) (r0 : OrderRecord),
      (∀ p ∈ inputs, p.2 ∈ Konverzky.allowedWebhookTypes) →
      w.getFails = false → w.putFails = false →
      w.store oid = some r0 → r0.webhook_types.Nodup →
      ∃ r : OrderRecord,
        (Konverzky.runUpserts w oid inputs).store oid = some r ∧
        r.webhook_types.Nodup ∧
        r.webhook_types.toFinset = r0.webhook_types.toFinset ∪ (inputs.map Prod.snd).toFinset ∧
        r.items = (inputs.map Prod.fst).getLastD r0.items := by
  induction inputs with
  | nil =>
    intro w r0 hall hget hput hst hnd
    exact ⟨r0, hst, hnd, by simp, by simp⟩
  | cons p ps ih =>
    intro w r0 hall hget hput hst hnd
    rw [runUpserts_cons]
    have hstep := handler_upsert_step w oid p.2 p.1 hoid (hall p (by simp)) hget hput
    have hw1store :
        (Konverzky.handler w (some (Konverzky.mkPayload oid p.1 p.2))).store oid =
          some { order_id := oid, items := p.1, last_updated := w.now
                 webhook_types := dedupStep r0.webhook_types p.2 } := by
      rw [hstep]
      simp [hst, jsSetArray_append_single, jsSetArray_eq_self _ hnd]
    obtain ⟨r, hr, hrnd, hrfin, hritems⟩ :=
      ih { w with store := (Konverzky.handler w (some (Konverzky.mkPayload oid p.1 p.2))).store }
        { order_id := oid, items := p.1, last_updated := w.now
          webhook_types := dedupStep r0.webhook_types p.2 }
        (fun q hq => hall q (List.mem_cons_of_mem p hq)) hget hput hw1store
        (dedupStep_nodup _ _ hnd)
    refine ⟨r, hr, hrnd, ?_, ?_⟩
    · rw [hrfin, dedupStep_toFinset]
      simp [Finset.insert_union, Finset.union_insert]
    · rw [hritems, List.map_cons, List.getLastD_cons]

/-! Claims C6, C7, C8. -/

/-- C6: set semantics of webhookTypesSeen. First conjunct: starting from no
record, a sequence of valid upserts for one order id with tags t1..tN
leaves a record whose webhook_types has no duplicate and whose set of tags
is exactly {t1,...,tN} — no tag is ever lost. Second conjunct: two upserts
with identical (orderId, items) leave the items unchanged and the tag
present exactly once. -/
theorem C6_webhook_types_set_semantics :
    (∀ (oid : String) (inputs : List (List OrderItem × String)) (w : Konverzky.KWorld),
      oid ≠ "" → inputs ≠ [] →
      (∀ p ∈ inputs, p.2 ∈ Konverzky.allowedWebhookTypes) →
      w.getFails = false → w.putFails = false → w.store oid = none →
      ∃ r : OrderRecord,
        (Konverzky.runUpserts w oid inputs).store oid = some r ∧
        r.webhook_types.Nodup ∧
        r.webhook_types.toFinset = (inputs.map Prod.snd).toFinset) ∧
    (∀ (oid t : String) (its : List OrderItem) (w : Konverzky.KWorld),
      oid ≠ "" → t ∈ Konverzky.allowedWebhookTypes →
      w.getFails = false → w.putFails = false → w.store oid = none →
      ∃ r : OrderRecord,
        (Konverzky.runUpserts w oid [(its, t), (its, t)]).store oid = some r ∧
        r.items = its ∧ r.webhook_types = [t] ∧ r.webhook_types.count t = 1) := by
  constructor
  · intro oid inputs w hoid hin hall hget hput h0
    cases inputs with
    | nil => exact absurd rfl hin
    | cons p ps =>
      rw [runUpserts_cons]
      have hstep := handler_upsert_step w oid p.2 p.1 hoid (hall p (by simp)) hget hput
      have hw1store :
          (Konverzky.handler w (some (Konverzky.mkPayload oid p.1 p.2))).store oid =
            some { order_id := oid, items := p.1, last_updated := w.now
                   webhook_types := [p.2] } := by
        rw [hstep]
        simp [h0]
      obtain ⟨r, hr, hrnd, hrfin, _⟩ :=
        runUpserts_invariant oid hoid ps
          { w with store := (Konverzky.handler w (some (Konverzky.mkPayload oid p.1 p.2))).store }
          { order_id := oid, items := p.1, last_updated := w.now, webhook_types := [p.2] }
          (fun q hq => hall q (List.mem_cons_of_mem p hq)) hget hput hw1store (by simp)
      refine ⟨r, hr, hrnd, ?_⟩
      rw [hrfin]
      ext x
      simp [or_comm]
  · intro oid t its w hoid ht hget hput h0
    have hstep1 := handler_upsert_step w oid t its hoid ht hget hput
    rw [runUpserts_cons, runUpserts_cons]
    have hs1 : (Konverzky.handler w (some (Konverzky.mkPayload oid its t))).store oid =
        some { order_id := oid, items := its, last_updated := w.now, webhook_types := [t] } := by
      rw [hstep1]
      simp [h0]
    have hstep2 := handler_upsert_step
      { w with store := (Konverzky.handler w (some (Konverzky.mkPayload oid its t))).store }
      oid t its hoid ht hget hput
    refine ⟨{ order_id := oid, items := its, last_updated := w.now, webhook_types := [t] },
      ?_, rfl, rfl, by simp⟩
    show (Konverzky.handler
        { w with store := (Konverzky.handler w (some (Konverzky.mkPayload oid its t))).store }
        (some (Konverzky.mkPayload oid its t))).store oid = _
    rw [hstep2]
    have hja : jsSetArray [t, t] = [t] := by
      simp [jsSetArray, dedupStep]
    simp [hs1, hja]

/-- C7: an upsert for an existing order id whose incoming items differ from
the stored ones is a conflict: the warning is logged, the response is still
a 200 success, the new items overwrite the old (last-writer-wins), and the
tag is unioned into the stored webhook types, losing none of the old tags. -/
theorem C7_conflict_last_writer_wins (w : Konverzky.KWorld) (oid t : String)
    (its : List OrderItem) (ex : OrderRecord)
    (hoid : oid ≠ "") (ht : t ∈ Konverzky.allowedWebhookTypes)
    (hget : w.getFails = false) (hput : w.putFails = false)
    (hex : w.store oid = some ex) (hdiff : ex.items ≠ its) :
    (Konverzky.handler w (some (Konverzky.mkPayload oid its t))).conflictWarned = true ∧
    (Konverzky.handler w (some (Konverzky.mkPayload oid its t))).resp =
      { statusCode := 200, body := RespBody.msg "Order processed successfully" } ∧
    (Konverzky.handler w (some (Konverzky.mkPayload oid its t))).store oid =
      some { order_id := oid, items := its, last_updated := w.now
             webhook_types := jsSetArray (ex.webhook_types ++ [t]) } ∧
    t ∈ jsSetArray (ex.webhook_types ++ [t]) ∧
    ∀ x ∈ ex.webhook_types, x ∈ jsSetArray (ex.webhook_types ++ [t]) := by
  have hstep := handler_upsert_step w oid t its hoid ht hget hput
  rw [hstep]
  refine ⟨?_, rfl, ?_, ?_, ?_⟩
  · simp [hex, hdiff]
  · simp [hex]
  · rw [jsSetArray_mem]
    simp
  · intro x hx
    rw [jsSetArray_mem]
    simp [hx]

/-- C8: an order payload with an allow-listed webhook type but a missing
order, a falsy order id, or a non-array items field is malformed: the
handler answers 400 and the store is left untouched. -/
theorem C8_malformed_no_write (w : Konverzky.KWorld) (p : Konverzky.KPayload) (t : String)
    (ht : p.webhook_type = some t) (hallow : t ∈ Konverzky.allowedWebhookTypes)
    (hbad : p.order = none ∨
      (∃ o, p.order = some o ∧ truthyOpt o.id = none) ∨
      (∃ o oid, p.order = some o ∧ truthyOpt o.id = some oid ∧ o.items = none)) :
    (Konverzky.handler w (some p)).resp.statusCode = 400 ∧
    (Konverzky.handler w (some p)).store = w.store := by
  rcases hbad with hnone | ⟨o, ho, hid⟩ | ⟨o, oid, ho, hid, hits⟩
  · constructor <;> simp [Konverzky.handler, ht, hallow, hnone]
  · constructor <;> simp [Konverzky.handler, ht, hallow, ho, hid]
  · constructor <;> simp [Konverzky.handler, ht, hallow, ho, hid, hits]

/-- A sample stored line item for the consumer witnesses. -/
def kItem1 : OrderItem := { name := "Widget", id := "w1", quantity := 2, unit_price := 10, vat := 0 }

/-- A second, different line item for the conflict witness. -/
def kItem2 : OrderItem := { name := "Gadget", id := "g1", quantity := 1, unit_price := 5, vat := 0 }

/-- A consumer environment with an empty store and healthy DynamoDB. -/
def kw0 : Konverzky.KWorld :=
  { store := emptyStore, now := "2026-01-01T09:00:00.000Z", getFails := false, putFails := false }

/-- An existing record for order 7. -/
def exRec : OrderRecord :=
  { order_id := "7", items := [kItem1]
    last_updated := "2026-01-01T08:00:00.000Z", webhook_types := ["order_paid"] }

/-- A consumer environment whose store holds order 7. -/
def kw7 : Konverzky.KWorld :=
  { kw0 with store := fun k => if k = "7" then some exRec else none }

/-- C6 witness: two upserts for order 7 with tags order_paid and upsell_paid
leave a duplicate-free record whose tag set is exactly those two tags. -/
theorem C6_webhook_types_set_semantics_witness :
    ∃ r : OrderRecord,
      (Konverzky.runUpserts kw0 "7"
        [([kItem1], "order_paid"), ([kItem1], "upsell_paid")]).store "7" = some r ∧
      r.webhook_types.Nodup ∧
      r.webhook_types.toFinset =
        (([([kItem1], "order_paid"), ([kItem1], "upsell_paid")] :
            List (List OrderItem × String)).map Prod.snd).toFinset :=
  C6_webhook_types_set_semantics.1 "7" [([kItem1], "order_paid"), ([kItem1], "upsell_paid")] kw0
    (by decide) (by simp) (by decide) rfl rfl rfl

/-- C7 witness: an upsert of order 7 with different items warns, succeeds
with 200, overwrites the items, and keeps the old tag while adding the new
one. -/
theorem C7_conflict_last_writer_wins_witness :
    (Konverzky.handler kw7 (some (Konverzky.mkPayload "7" [kItem2] "product_paid"))).conflictWarned = true ∧
    (Konverzky.handler kw7 (some (Konverzky.mkPayload "7" [kItem2] "product_paid"))).resp =
      { statusCode := 200, body := RespBody.msg "Order processed successfully" } ∧
    (Konverzky.handler kw7 (some (Konverzky.mkPayload "7" [kItem2] "product_paid"))).store "7" =
      some { order_id := "7", items := [kItem2], last_updated := kw7.now
             webhook_types := jsSetArray (exRec.webhook_types ++ ["product_paid"]) } ∧
    "product_paid" ∈ jsSetArray (exRec.webhook_types ++ ["product_paid"]) ∧
    ∀ x ∈ exRec.webhook_types, x ∈ jsSetArray (exRec.webhook_types ++ ["product_paid"]) :=
  C7_conflict_last_writer_wins kw7 "7" "product_paid" [kItem2] exRec
    (by decide) (by decide) rfl rfl rfl (by decide)

/-- A malformed payload: allow-listed webhook type but no order object. -/
def pBad : Konverzky.KPayload := { webhook_type := some "order_paid", order := none }

/-- C8 witness: the malformed payload gets a 400 and the store is untouched. -/
theorem C8_malformed_no_write_witness :
    (Konverzky.handler kw0 (some pBad)).resp.statusCode = 400 ∧
    (Konverzky.handler kw0 (some pBad)).store = kw0.store :=
  C8_malformed_no_write kw0 pBad "order_paid" rfl (by decide) (Or.inl rfl)
